import Mathlib

/-!
Verification of the pose-scoring engine and challenge session state machine
implemented in src/src/PoseChallenge.js.

The JavaScript source is shallowly embedded: floating-point numbers become
real numbers, JS arrays with possibly-missing entries become lists of
options, and expressions that can throw a TypeError (property access on
undefined) are modelled with Except.  The constant tables imported from
data/challenges.js (TARGET_ANGLES, TOLERANCE, LANDMARKS, CHALLENGES) are not
part of the repository sources available here; they are modelled from the
spec as an explicit configuration value and a fixed landmark index table.
-/

namespace PoseChallenge

/-- A detected landmark: normalized image-plane coordinates, depth, and a
detection-confidence score (spec section 3, Point). -/
structure Point where
  x : ℝ
  y : ℝ
  z : ℝ
  visibility : ℝ

/-- A per-frame skeleton: a JS array of landmarks in which an entry may be
absent (index out of range or a null entry both read as undefined). -/
abbrev Skeleton := List (Option Point)

/-- JS array indexing: landmarks[i] evaluates to undefined when the index is
out of range or the entry is missing. -/
def getLm (l : Skeleton) (i : ℕ) : Option Point := l.getD i none

/-- Euclidean norm of a 2D vector, as computed by Math.sqrt of the sum of
squares in calculateAngle. -/
noncomputable def magnitude (dx dy : ℝ) : ℝ := Real.sqrt (dx ^ 2 + dy ^ 2)

/-- Embedding of calculateAngle (PoseChallenge.js lines 18-36): the angle at
vertex M between the rays M→A and M→B, from the dot product and arccos on
the 2D projection, with the cosine clamped to [-1,1]; if either ray has zero
length the initial value 0 is returned unchanged.  The JS let-bindings for
the vector components and magnitudes are inlined. -/
noncomputable def calculateAngle (A M B : Point) : ℝ :=
  if magnitude (A.x - M.x) (A.y - M.y) ≠ 0 ∧ magnitude (B.x - M.x) (B.y - M.y) ≠ 0 then
    Real.arccos (max (-1) (min 1
      (((A.x - M.x) * (B.x - M.x) + (A.y - M.y) * (B.y - M.y)) /
        (magnitude (A.x - M.x) (A.y - M.y) * magnitude (B.x - M.x) (B.y - M.y))))) *
      (180 / Real.pi)
  else 0

lemma magnitude_self_zero (x y : ℝ) : magnitude (x - x) (y - y) = 0 := by
  simp [magnitude]

lemma calculateAngle_nonneg_le (A M B : Point) :
    0 ≤ calculateAngle A M B ∧ calculateAngle A M B ≤ 180 := by
  unfold calculateAngle
  split_ifs with h
  · constructor
    · have h1 : 0 ≤ Real.arccos (max (-1) (min 1
        (((A.x - M.x) * (B.x - M.x) + (A.y - M.y) * (B.y - M.y)) /
          (magnitude (A.x - M.x) (A.y - M.y) * magnitude (B.x - M.x) (B.y - M.y))))) :=
        Real.arccos_nonneg _
      have h2 : (0:ℝ) ≤ 180 / Real.pi := by positivity
      exact mul_nonneg h1 h2
    · have h1 : Real.arccos (max (-1) (min 1
        (((A.x - M.x) * (B.x - M.x) + (A.y - M.y) * (B.y - M.y)) /
          (magnitude (A.x - M.x) (A.y - M.y) * magnitude (B.x - M.x) (B.y - M.y))))) ≤
          Real.pi := Real.arccos_le_pi _
      have h2 : (0:ℝ) ≤ 180 / Real.pi := by positivity
      calc Real.arccos (max (-1) (min 1
            (((A.x - M.x) * (B.x - M.x) + (A.y - M.y) * (B.y - M.y)) /
              (magnitude (A.x - M.x) (A.y - M.y) * magnitude (B.x - M.x) (B.y - M.y))))) *
            (180 / Real.pi)
          ≤ Real.pi * (180 / Real.pi) := mul_le_mul_of_nonneg_right h1 h2
        _ = 180 := by
            field_simp
  · norm_num

/-- C7: calculateAngle is symmetric under swapping A and B; it returns the
sentinel 0 whenever either ray has zero length (A = M or B = M); and its
result always lies in [0,180] degrees, the cosine being clamped to [-1,1]
before arccos. -/
theorem C7_calculateAngle_props :
    (∀ A M B : Point, calculateAngle A M B = calculateAngle B M A) ∧
    (∀ A M B : Point, A = M ∨ B = M → calculateAngle A M B = 0) ∧
    (∀ A M B : Point, 0 ≤ calculateAngle A M B ∧ calculateAngle A M B ≤ 180) := by
  refine ⟨?_, ?_, calculateAngle_nonneg_le⟩
  · intro A M B
    unfold calculateAngle
    refine if_congr and_comm ?_ rfl
    have hdot : (A.x - M.x) * (B.x - M.x) + (A.y - M.y) * (B.y - M.y)
        = (B.x - M.x) * (A.x - M.x) + (B.y - M.y) * (A.y - M.y) := by ring
    rw [hdot, mul_comm (magnitude (A.x - M.x) (A.y - M.y))
      (magnitude (B.x - M.x) (B.y - M.y))]
  · intro A M B h
    unfold calculateAngle
    rw [if_neg]
    rcases h with h | h
    · subst h
      intro hc
      exact hc.1 (magnitude_self_zero A.x A.y)
    · subst h
      intro hc
      exact hc.2 (magnitude_self_zero B.x B.y)

/-- Witness for C7: the degenerate-input clause applied at A = M. -/
theorem C7_calculateAngle_props_witness :
    calculateAngle ⟨1, 2, 0, 1⟩ ⟨1, 2, 0, 1⟩ ⟨0, 0, 0, 1⟩ = 0 :=
  C7_calculateAngle_props.2.1 ⟨1, 2, 0, 1⟩ ⟨1, 2, 0, 1⟩ ⟨0, 0, 0, 1⟩ (Or.inl rfl)

/-- Modelled from the spec: the TARGET_ANGLES constant table imported from
data/challenges.js (not under src/) — a named target angle in degrees per
joint role.  Its numeric values are unspecified, so it is a parameter. -/
structure TargetAngles where
  ELBOW : ℝ
  SHOULDER : ℝ
  KNEE_STRAIGHT : ℝ

/-- Modelled from the spec: the TOLERANCE constant table imported from
data/challenges.js (not under src/) — an allowed deviation per joint role
plus the looser tolerance used only to detect the start pose. -/
structure Tolerance where
  ELBOW : ℝ
  SHOULDER : ℝ
  KNEE : ℝ
  TILT : ℝ
  START_TOLERANCE : ℝ

/-- The process-wide constant configuration read by the scoring and gating
functions. -/
structure Config where
  target : TargetAngles
  tolerance : Tolerance

namespace LANDMARKS

/-- Modelled from the spec: the LANDMARKS index table imported from
data/challenges.js (not under src/) — the standard 33-entry MediaPipe pose
mapping from named landmark identifiers to array indices; this and the
following eleven definitions give the indices the source reads. -/
def LEFT_SHOULDER : ℕ := 11

def RIGHT_SHOULDER : ℕ := 12

def LEFT_ELBOW : ℕ := 13

def RIGHT_ELBOW : ℕ := 14

def LEFT_WRIST : ℕ := 15

def RIGHT_WRIST : ℕ := 16

def LEFT_HIP : ℕ := 23

def RIGHT_HIP : ℕ := 24

def LEFT_KNEE : ℕ := 25

def RIGHT_KNEE : ℕ := 26

def LEFT_ANKLE : ℕ := 27

def RIGHT_ANKLE : ℕ := 28

end LANDMARKS

/-- The eight landmarks required by isStartPoseAchieved, in source order
(PoseChallenge.js lines 48-49). -/
def requiredLandmarks : List ℕ :=
  [LANDMARKS.LEFT_SHOULDER, LANDMARKS.LEFT_ELBOW, LANDMARKS.LEFT_WRIST, LANDMARKS.LEFT_HIP,
   LANDMARKS.RIGHT_SHOULDER, LANDMARKS.RIGHT_ELBOW, LANDMARKS.RIGHT_WRIST, LANDMARKS.RIGHT_HIP]

/-- Failure of the per-landmark guard in isStartPoseAchieved (line 51): the
entry is missing (falsy in JS) or its visibility is below 0.7. -/
def visFail (lm : Option Point) : Prop :=
  match lm with
  | none => True
  | some p => p.visibility < 0.7

/-- The landmark value read by the angle computations.  The source reads the
array entry directly; the preceding visibility guard ensures it is present,
so the default is never observable. -/
def pt (l : Skeleton) (i : ℕ) : Point := (getLm l i).getD ⟨0, 0, 0, 0⟩

/-- The two sides a scored arm can be on. -/
inductive Side
  | LEFT
  | RIGHT
deriving DecidableEq

/-- Index of the shoulder landmark on a side (the JS string template
L[`SIDE_SHOULDER`]). -/
def shoulderIdx : Side → ℕ
  | .LEFT => LANDMARKS.LEFT_SHOULDER
  | .RIGHT => LANDMARKS.RIGHT_SHOULDER

/-- Index of the elbow landmark on a side. -/
def elbowIdx : Side → ℕ
  | .LEFT => LANDMARKS.LEFT_ELBOW
  | .RIGHT => LANDMARKS.RIGHT_ELBOW

/-- Index of the wrist landmark on a side. -/
def wristIdx : Side → ℕ
  | .LEFT => LANDMARKS.LEFT_WRIST
  | .RIGHT => LANDMARKS.RIGHT_WRIST

/-- Index of the hip landmark on a side. -/
def hipIdx : Side → ℕ
  | .LEFT => LANDMARKS.LEFT_HIP
  | .RIGHT => LANDMARKS.RIGHT_HIP

/-- Per-side arm readiness in isStartPoseAchieved (lines 56-68): the elbow
angle (shoulder-elbow-wrist) and the shoulder angle (hip-shoulder-elbow) are
each within START_TOLERANCE of the configured targets. -/
def armReady (cfg : Config) (l : Skeleton) (s : Side) : Prop :=
  |calculateAngle (pt l (shoulderIdx s)) (pt l (elbowIdx s)) (pt l (wristIdx s)) -
      cfg.target.ELBOW| ≤ cfg.tolerance.START_TOLERANCE ∧
  |calculateAngle (pt l (hipIdx s)) (pt l (shoulderIdx s)) (pt l (elbowIdx s)) -
      cfg.target.SHOULDER| ≤ cfg.tolerance.START_TOLERANCE

/-- Embedding of isStartPoseAchieved (lines 41-71): false on a null landmark
array; false if any of the eight required landmarks is missing or has
visibility below 0.7; otherwise true exactly when both arms are ready. -/
def isStartPoseAchieved (cfg : Config) (landmarks : Option Skeleton) : Prop :=
  match landmarks with
  | none => False
  | some l =>
      (∀ i ∈ requiredLandmarks, ¬ visFail (getLm l i)) ∧
      armReady cfg l .LEFT ∧ armReady cfg l .RIGHT

/-- C3: the start-pose gate returns false whenever any of the 8 required
landmarks is missing or has visibility below 0.7, regardless of the angle
values; when all 8 are visible it returns true iff on both sides the elbow
and shoulder angles are within the start tolerance of the configured
targets. -/
theorem C3_start_pose_gate :
    (∀ (cfg : Config) (l : Skeleton),
      (∃ i ∈ requiredLandmarks, visFail (getLm l i)) →
        ¬ isStartPoseAchieved cfg (some l)) ∧
    (∀ (cfg : Config) (l : Skeleton),
      (∀ i ∈ requiredLandmarks, ¬ visFail (getLm l i)) →
        (isStartPoseAchieved cfg (some l) ↔
          armReady cfg l .LEFT ∧ armReady cfg l .RIGHT)) := by
  constructor
  · rintro cfg l ⟨i, hi, hfail⟩ hpose
    exact hpose.1 i hi hfail
  · intro cfg l hvis
    exact ⟨fun h => h.2, fun h => ⟨hvis, h.1, h.2⟩⟩

/-- A fixed concrete configuration used to instantiate witnesses. -/
def cfg0 : Config := ⟨⟨160, 90, 175⟩, ⟨20, 20, 15, 10, 25⟩⟩

/-- A landmark with visibility 0.69, just below the threshold. -/
def pt069 : Point := ⟨0.5, 0.5, 0, 0.69⟩

/-- A full skeleton whose entries all have visibility 0.69. -/
def sk069 : Skeleton := List.replicate 25 (some pt069)

/-- Witness for C3: with every landmark present but visibility 0.69, the
gate rejects regardless of the angle values. -/
theorem C3_start_pose_gate_witness :
    ¬ isStartPoseAchieved cfg0 (some sk069) :=
  C3_start_pose_gate.1 cfg0 sk069
    ⟨LANDMARKS.LEFT_SHOULDER, by decide, by
      norm_num [getLm, sk069, pt069, visFail, List.getD_eq_getElem?_getD,
        List.getElem?_replicate, LANDMARKS.LEFT_SHOULDER]⟩

/-- C10: the start-pose gate is total on absent data — it rejects when the
landmark array itself is null, and also when a required landmark entry is
missing entirely from the array. -/
theorem C10_gate_total_on_absent :
    (∀ cfg : Config, ¬ isStartPoseAchieved cfg none) ∧
    (∀ (cfg : Config) (l : Skeleton) (i : ℕ), i ∈ requiredLandmarks →
      getLm l i = none → ¬ isStartPoseAchieved cfg (some l)) := by
  constructor
  · intro cfg h
    exact h
  · intro cfg l i hi hnone hpose
    have h := hpose.1 i hi
    rw [hnone] at h
    exact h trivial

/-- Witness for C10: the empty landmark array has no entry at the left
shoulder index, so the gate rejects. -/
theorem C10_gate_total_on_absent_witness :
    ¬ isStartPoseAchieved cfg0 (some ([] : Skeleton)) :=
  C10_gate_total_on_absent.2 cfg0 [] LANDMARKS.LEFT_SHOULDER (by decide) rfl

/-- A JavaScript runtime error: property access on undefined throws a
TypeError. -/
inductive JsErr
  | typeError
deriving DecidableEq

/-- Reading a property of a possibly-undefined landmark entry: undefined
throws a TypeError, a present entry yields the point. -/
def deref (lm : Option Point) : Except JsErr Point :=
  match lm with
  | none => .error .typeError
  | some p => .ok p

/-- A challenge (spec section 3): name, targetType, evaluation joints, guide
message omitted, and the mutable score written at finalization.  evalJoints
is optional so that a configuration missing it can be expressed. -/
structure Challenge where
  name : String
  targetType : String
  evalJoints : Option (List String)
  score : Option ℝ

/-- Evaluation of challenge.evalJoints[0] as used on line 111: indexing a
missing evalJoints array throws, and calling includes on the undefined
element of an empty array throws. -/
def evalJointsHead (c : Challenge) : Except JsErr String :=
  match c.evalJoints with
  | none => .error .typeError
  | some js =>
      match js.head? with
      | none => .error .typeError
      | some j => .ok j

/-- Side selection of the ARM branch (line 111): LEFT exactly when the first
eval joint name contains the character L, otherwise RIGHT.  The JS
includes test on a one-character argument is membership of that character
among the characters of the name. -/
def armSide (j : String) : Side := if j.data.contains 'L' then .LEFT else .RIGHT

/-- The four landmark indices checked by the ARM visibility guard, in source
order: shoulder, elbow, wrist, hip of the selected side (lines 113-119). -/
def armJoints (s : Side) : List ℕ := [shoulderIdx s, elbowIdx s, wristIdx s, hipIdx s]

/-- The four landmark indices checked by the LEG_BALANCE visibility guard,
in source order (lines 146-147). -/
def legJoints : List ℕ :=
  [LANDMARKS.RIGHT_KNEE, LANDMARKS.RIGHT_ANKLE, LANDMARKS.RIGHT_HIP, LANDMARKS.LEFT_HIP]

/-- Left-to-right evaluation of the chained visibility comparison
lm[a].visibility < 0.7 || lm[b].visibility < 0.7 || ...: each dereference
can throw, and evaluation short-circuits at the first comparison that is
true. -/
noncomputable def visBelowCheck (lms : Skeleton) : List ℕ → Except JsErr Bool
  | [] => .ok false
  | i :: rest =>
      match deref (getLm lms i) with
      | .error e => .error e
      | .ok p => if p.visibility < 0.7 then .ok true else visBelowCheck lms rest

/-- The per-deviation score 100 * (1 - diff / tol) floored at 0 by Math.max,
shared by every sub-score of calculateMatchScore. -/
noncomputable def linScore (diff tol : ℝ) : ℝ := max 0 (100 * (1 - diff / tol))

/-- toFixed(1) followed by parseFloat on a nonnegative score: rounding to
one decimal place. -/
noncomputable def round1 (x : ℝ) : ℝ := (round (10 * x) : ℤ) / 10

/-- ARM elbow sub-score (lines 123, 126, 129, 132): deviation of the
shoulder-elbow-wrist angle from the ELBOW target against the ELBOW
tolerance. -/
noncomputable def armScoreElbow (cfg : Config) (lms : Skeleton) (s : Side) : ℝ :=
  linScore
    |calculateAngle (pt lms (shoulderIdx s)) (pt lms (elbowIdx s)) (pt lms (wristIdx s)) -
      cfg.target.ELBOW| cfg.tolerance.ELBOW

/-- ARM shoulder sub-score (lines 124, 127, 130, 133): deviation of the
hip-shoulder-elbow angle from the SHOULDER target against the SHOULDER
tolerance. -/
noncomputable def armScoreShoulder (cfg : Config) (lms : Skeleton) (s : Side) : ℝ :=
  linScore
    |calculateAngle (pt lms (hipIdx s)) (pt lms (shoulderIdx s)) (pt lms (elbowIdx s)) -
      cfg.target.SHOULDER| cfg.tolerance.SHOULDER

/-- Knee-straightness sub-score of LEG_BALANCE (lines 152-156). -/
noncomputable def kneeSubScore (cfg : Config) (lms : Skeleton) : ℝ :=
  linScore
    |calculateAngle (pt lms LANDMARKS.RIGHT_HIP) (pt lms LANDMARKS.RIGHT_KNEE)
      (pt lms LANDMARKS.RIGHT_ANKLE) - cfg.target.KNEE_STRAIGHT| cfg.tolerance.KNEE

/-- Math.atan2(a, b) on real arguments (first argument plays the role of y).
Signed zeros do not exist on the reals, so atan2(0, 0) is the JS value for
positive zeros, namely 0. -/
noncomputable def jsAtan2 (a b : ℝ) : ℝ :=
  if 0 < b then Real.arctan (a / b)
  else if b < 0 then
    (if 0 ≤ a then Real.arctan (a / b) + Real.pi else Real.arctan (a / b) - Real.pi)
  else
    (if 0 < a then Real.pi / 2 else if a < 0 then -(Real.pi / 2) else 0)

/-- verticalAngle of the trunk-verticality sub-score (lines 160-161): the
absolute hip-to-knee segment angle in degrees. -/
noncomputable def verticalAngle (lms : Skeleton) : ℝ :=
  |jsAtan2 ((pt lms LANDMARKS.RIGHT_HIP).x - (pt lms LANDMARKS.RIGHT_KNEE).x)
      ((pt lms LANDMARKS.RIGHT_HIP).y - (pt lms LANDMARKS.RIGHT_KNEE).y) *
    (180 / Real.pi)|

/-- tiltDiff (line 162): the angle folded so that both near-0 and near-180
orientations count as near vertical. -/
noncomputable def tiltDiff (lms : Skeleton) : ℝ :=
  min (verticalAngle lms) |180 - verticalAngle lms|

/-- Trunk-verticality sub-score (lines 164-167). -/
noncomputable def tiltSubScore (cfg : Config) (lms : Skeleton) : ℝ :=
  linScore (tiltDiff lms) cfg.tolerance.TILT

/-- Hip-levelness pixel mapping (line 174): 100 at zero pixel difference,
falling linearly to 0 at a 20-pixel difference and floored there. -/
noncomputable def hipBalanceScore (deltaPx : ℝ) : ℝ := max 0 (100 * (1 - deltaPx / 20))

/-- Conversion of the normalized vertical hip difference into pixels using
the canvas height (line 171). -/
noncomputable def hipDeltaYpx (canvasHeight : ℝ) (lms : Skeleton) : ℝ :=
  |(pt lms LANDMARKS.RIGHT_HIP).y - (pt lms LANDMARKS.LEFT_HIP).y| * canvasHeight

/-- Hip-levelness sub-score of LEG_BALANCE (lines 169-177). -/
noncomputable def hipSubScore (canvasHeight : ℝ) (lms : Skeleton) : ℝ :=
  hipBalanceScore (hipDeltaYpx canvasHeight lms)

/-- Embedding of calculateMatchScore (lines 99-183) applied to a present
challenge: dispatch on targetType; ARM selects a side from the first eval
joint, guards the four side landmarks for visibility and scores elbow plus
shoulder; LEG_BALANCE guards knee, ankle and both hips and scores knee
straightness, trunk verticality and hip levelness; any other targetType
accrues no joints and returns 0.  The mean of the sub-scores is rounded to
one decimal. -/
noncomputable def calculateMatchScore (cfg : Config) (canvasHeight : ℝ)
    (challenge : Challenge) (lms : Skeleton) : Except JsErr ℝ :=
  if challenge.targetType = "ARM" then
    match evalJointsHead challenge with
    | .error e => .error e
    | .ok j =>
        match visBelowCheck lms (armJoints (armSide j)) with
        | .error e => .error e
        | .ok true => .ok 0
        | .ok false =>
            .ok (round1 ((armScoreElbow cfg lms (armSide j) +
              armScoreShoulder cfg lms (armSide j)) / 2))
  else if challenge.targetType = "LEG_BALANCE" then
    match visBelowCheck lms legJoints with
    | .error e => .error e
    | .ok true => .ok 0
    | .ok false =>
        .ok (round1 ((kneeSubScore cfg lms + tiltSubScore cfg lms +
          hipSubScore canvasHeight lms) / 3))
  else .ok 0

/-- The challenge lookup at the head of calculateMatchScore (lines 100 and
107): an out-of-range index reads undefined and the function returns 0. -/
noncomputable def calculateMatchScoreAt (cfg : Config) (canvasHeight : ℝ)
    (challenges : List Challenge) (idx : ℕ) (lms : Skeleton) : Except JsErr ℝ :=
  match challenges[idx]? with
  | none => .ok 0
  | some c => calculateMatchScore cfg canvasHeight c lms

lemma linScore_nonneg (d t : ℝ) : 0 ≤ linScore d t := le_max_left 0 _

lemma linScore_le_100 {d t : ℝ} (hd : 0 ≤ d) (ht : 0 < t) : linScore d t ≤ 100 := by
  unfold linScore
  have hdt : 0 ≤ d / t := div_nonneg hd ht.le
  have h1 : 100 * (1 - d / t) ≤ 100 := by nlinarith
  exact max_le (by norm_num) h1

lemma linScore_eq_100_iff {d t : ℝ} (hd : 0 ≤ d) (ht : 0 < t) :
    linScore d t = 100 ↔ d = 0 := by
  unfold linScore
  constructor
  · intro h
    by_cases hc : 100 * (1 - d / t) ≤ 0
    · rw [max_eq_left hc] at h
      norm_num at h
    · push_neg at hc
      rw [max_eq_right hc.le] at h
      have hdt : d / t = 0 := by linarith
      rcases div_eq_zero_iff.mp hdt with h1 | h1
      · exact h1
      · exact absurd h1 ht.ne'
  · intro h
    subst h
    simp

lemma linScore_eq_zero_of_le {d t : ℝ} (ht : 0 < t) (hle : t ≤ d) :
    linScore d t = 0 := by
  unfold linScore
  have h1 : 1 ≤ d / t := (one_le_div ht).mpr hle
  exact max_eq_left (by nlinarith)

lemma linScore_linear {d t : ℝ} (ht : 0 < t) (hle : d ≤ t) :
    linScore d t = 100 * (1 - d / t) := by
  unfold linScore
  have h1 : d / t ≤ 1 := (div_le_one ht).mpr hle
  exact max_eq_right (by nlinarith)

lemma round1_bounds {x : ℝ} (h0 : 0 ≤ x) (h100 : x ≤ 100) :
    0 ≤ round1 x ∧ round1 x ≤ 100 := by
  unfold round1
  constructor
  · have h1 : (0 : ℤ) ≤ round (10 * x) := by
      rw [round_eq]
      exact Int.le_floor.mpr (by push_cast; linarith)
    have h2 : (0 : ℝ) ≤ ((round (10 * x) : ℤ) : ℝ) := by exact_mod_cast h1
    linarith [div_nonneg h2 (by norm_num : (0:ℝ) ≤ 10)]
  · have h1 : round (10 * x) ≤ (1000 : ℤ) := by
      rw [round_eq]
      have : ⌊10 * x + 1 / 2⌋ < (1001 : ℤ) := Int.floor_lt.mpr (by push_cast; linarith)
      omega
    have h2 : ((round (10 * x) : ℤ) : ℝ) ≤ 1000 := by exact_mod_cast h1
    rw [div_le_iff₀ (by norm_num : (0:ℝ) < 10)]
    linarith

lemma tiltDiff_nonneg (lms : Skeleton) : 0 ≤ tiltDiff lms :=
  le_min (abs_nonneg _) (abs_nonneg _)

lemma calculateMatchScore_ok_bounds (cfg : Config) (ch : ℝ) (c : Challenge)
    (lms : Skeleton) (r : ℝ)
    (hE : 0 < cfg.tolerance.ELBOW) (hS : 0 < cfg.tolerance.SHOULDER)
    (hK : 0 < cfg.tolerance.KNEE) (hT : 0 < cfg.tolerance.TILT)
    (hH : 0 ≤ ch)
    (h : calculateMatchScore cfg ch c lms = .ok r) : 0 ≤ r ∧ r ≤ 100 := by
  unfold calculateMatchScore at h
  split_ifs at h with h1 h2
  · cases hj : evalJointsHead c with
    | error e =>
      simp only [hj] at h
      exact Except.noConfusion h
    | ok j =>
      simp only [hj] at h
      cases hv : visBelowCheck lms (armJoints (armSide j)) with
      | error e =>
        simp only [hv] at h
        exact Except.noConfusion h
      | ok b =>
        simp only [hv] at h
        cases b with
        | true =>
          simp only [Except.ok.injEq] at h
          subst h
          norm_num
        | false =>
          simp only [Except.ok.injEq] at h
          subst h
          have e1 := linScore_nonneg
            |calculateAngle (pt lms (shoulderIdx (armSide j)))
              (pt lms (elbowIdx (armSide j))) (pt lms (wristIdx (armSide j))) -
              cfg.target.ELBOW| cfg.tolerance.ELBOW
          have e2 := linScore_le_100 (abs_nonneg _) hE
            (d := |calculateAngle (pt lms (shoulderIdx (armSide j)))
              (pt lms (elbowIdx (armSide j))) (pt lms (wristIdx (armSide j))) -
              cfg.target.ELBOW|)
          have s1 := linScore_nonneg
            |calculateAngle (pt lms (hipIdx (armSide j)))
              (pt lms (shoulderIdx (armSide j))) (pt lms (elbowIdx (armSide j))) -
              cfg.target.SHOULDER| cfg.tolerance.SHOULDER
          have s2 := linScore_le_100 (abs_nonneg _) hS
            (d := |calculateAngle (pt lms (hipIdx (armSide j)))
              (pt lms (shoulderIdx (armSide j))) (pt lms (elbowIdx (armSide j))) -
              cfg.target.SHOULDER|)
          refine round1_bounds ?_ ?_
          · unfold armScoreElbow armScoreShoulder
            linarith
          · unfold armScoreElbow armScoreShoulder
            linarith
  · cases hv : visBelowCheck lms legJoints with
    | error e =>
      simp only [hv] at h
      exact Except.noConfusion h
    | ok b =>
      simp only [hv] at h
      cases b with
      | true =>
        simp only [Except.ok.injEq] at h
        subst h
        norm_num
      | false =>
        simp only [Except.ok.injEq] at h
        subst h
        have k1 := linScore_nonneg
          |calculateAngle (pt lms LANDMARKS.RIGHT_HIP) (pt lms LANDMARKS.RIGHT_KNEE)
            (pt lms LANDMARKS.RIGHT_ANKLE) - cfg.target.KNEE_STRAIGHT| cfg.tolerance.KNEE
        have k2 := linScore_le_100 (abs_nonneg _) hK
          (d := |calculateAngle (pt lms LANDMARKS.RIGHT_HIP) (pt lms LANDMARKS.RIGHT_KNEE)
            (pt lms LANDMARKS.RIGHT_ANKLE) - cfg.target.KNEE_STRAIGHT|)
        have t1 := linScore_nonneg (tiltDiff lms) cfg.tolerance.TILT
        have t2 := linScore_le_100 (tiltDiff_nonneg lms) hT
        have hip0 : 0 ≤ hipDeltaYpx ch lms := mul_nonneg (abs_nonneg _) hH
        have hp1 := linScore_nonneg (hipDeltaYpx ch lms) 20
        have hp2 := linScore_le_100 hip0 (by norm_num : (0:ℝ) < 20)
        have hipeq : hipSubScore ch lms = linScore (hipDeltaYpx ch lms) 20 := rfl
        refine round1_bounds ?_ ?_
        · unfold kneeSubScore tiltSubScore
          rw [hipeq]
          linarith
        · unfold kneeSubScore tiltSubScore
          rw [hipeq]
          linarith
  · simp only [Except.ok.injEq] at h
    subst h
    norm_num

/-- C4: every sub-score of calculateMatchScore lies in [0,100], equals 100
only at zero deviation, decays linearly, reaches 0 exactly at the tolerance
boundary and stays 0 beyond it; and every numeric overall score, the rounded
unweighted mean of the sub-scores, also lies in [0,100]. -/
theorem C4_subscore_bounds :
    (∀ d t : ℝ, 0 ≤ d → 0 < t →
      (0 ≤ linScore d t ∧ linScore d t ≤ 100) ∧
      (linScore d t = 100 ↔ d = 0) ∧
      (t ≤ d → linScore d t = 0) ∧
      (d ≤ t → linScore d t = 100 * (1 - d / t))) ∧
    (∀ (cfg : Config) (ch : ℝ) (c : Challenge) (lms : Skeleton) (r : ℝ),
      0 < cfg.tolerance.ELBOW → 0 < cfg.tolerance.SHOULDER →
      0 < cfg.tolerance.KNEE → 0 < cfg.tolerance.TILT → 0 ≤ ch →
      calculateMatchScore cfg ch c lms = .ok r → 0 ≤ r ∧ r ≤ 100) := by
  constructor
  · intro d t hd ht
    exact ⟨⟨linScore_nonneg d t, linScore_le_100 hd ht⟩, linScore_eq_100_iff hd ht,
      fun hle => linScore_eq_zero_of_le ht hle, fun hle => linScore_linear ht hle⟩
  · intro cfg ch c lms r hE hS hK hT hH h
    exact calculateMatchScore_ok_bounds cfg ch c lms r hE hS hK hT hH h

/-- A challenge with an unsupported targetType, used to instantiate
witnesses on the configuration-error path. -/
def chFoo : Challenge := ⟨"demo", "FOO", none, none⟩

/-- Witness for C4: the sub-score facts at deviation 5 against tolerance 20,
and the overall bound at a concrete challenge whose score is 0. -/
theorem C4_subscore_bounds_witness :
    ((0 ≤ linScore 5 20 ∧ linScore 5 20 ≤ 100) ∧
      (linScore 5 20 = 100 ↔ (5:ℝ) = 0) ∧
      ((20:ℝ) ≤ 5 → linScore 5 20 = 0) ∧
      ((5:ℝ) ≤ 20 → linScore 5 20 = 100 * (1 - 5 / 20))) ∧
    (0 ≤ (0:ℝ) ∧ (0:ℝ) ≤ 100) :=
  ⟨C4_subscore_bounds.1 5 20 (by norm_num) (by norm_num),
   C4_subscore_bounds.2 cfg0 480 chFoo [] 0 (by norm_num [cfg0]) (by norm_num [cfg0])
     (by norm_num [cfg0]) (by norm_num [cfg0]) (by norm_num) rfl⟩

/-- C9: the LEG_BALANCE hip-levelness sub-score converts the absolute
normalized vertical hip difference into pixels with the canvas pixel height
and maps the pixel difference linearly: 0 px scores 100, 10 px scores 50,
and 20 px or more scores 0. -/
theorem C9_hip_levelness :
    hipBalanceScore 0 = 100 ∧ hipBalanceScore 10 = 50 ∧
    (∀ d : ℝ, 20 ≤ d → hipBalanceScore d = 0) ∧
    (∀ d : ℝ, 0 ≤ d → d ≤ 20 → hipBalanceScore d = 100 * (1 - d / 20)) ∧
    (∀ (h : ℝ) (lms : Skeleton),
      hipSubScore h lms =
        hipBalanceScore
          (|(pt lms LANDMARKS.RIGHT_HIP).y - (pt lms LANDMARKS.LEFT_HIP).y| * h)) := by
  have heq : ∀ d : ℝ, hipBalanceScore d = linScore d 20 := fun d => rfl
  refine ⟨?_, ?_, ?_, ?_, fun h lms => rfl⟩
  · unfold hipBalanceScore
    norm_num
  · unfold hipBalanceScore
    norm_num
  · intro d hd
    rw [heq]
    exact linScore_eq_zero_of_le (by norm_num) hd
  · intro d hd0 hd20
    rw [heq]
    exact linScore_linear (by norm_num) hd20

/-- Witness for C9: a 25-pixel difference scores 0. -/
theorem C9_hip_levelness_witness : hipBalanceScore 25 = 0 :=
  C9_hip_levelness.2.2.1 25 (by norm_num)

/-- Counterexample for C1: RIGHT_ELBOW and RIGHT_SHOULDER name right-side
joints, yet the side selection maps both to LEFT because the test is merely
whether the name contains the letter L. -/
theorem C1_counterexample :
    armSide "RIGHT_ELBOW" = Side.LEFT ∧ armSide "RIGHT_SHOULDER" = Side.LEFT := by
  constructor <;> rfl

lemma visBelowCheck_true_of_low (lms : Skeleton) :
    ∀ l : List ℕ, (∀ i ∈ l, getLm lms i ≠ none) →
      (∃ i ∈ l, ∃ p, getLm lms i = some p ∧ p.visibility < 0.7) →
      visBelowCheck lms l = .ok true := by
  intro l
  induction l with
  | nil =>
    rintro _ ⟨i, hi, _⟩
    exact absurd hi (List.not_mem_nil i)
  | cons a rest ih =>
    rintro hpres ⟨i, hi, p, hp, hlow⟩
    unfold visBelowCheck
    cases hq : getLm lms a with
    | none => exact absurd hq (hpres a (List.mem_cons_self a rest))
    | some q =>
      simp only [hq, deref]
      by_cases hql : q.visibility < 0.7
      · rw [if_pos hql]
      · rw [if_neg hql]
        apply ih
        · intro i' hi'
          exact hpres i' (List.mem_cons_of_mem a hi')
        · rcases List.mem_cons.mp hi with rfl | hmem
          · rw [hq] at hp
            cases hp
            exact absurd hlow hql
          · exact ⟨i, hmem, p, hp, hlow⟩

/-- C1 (amended): the ARM side is selected by testing whether the first
eval joint name contains the letter L — containing it selects the LEFT
landmarks, otherwise the RIGHT ones — so right-side names such as
RIGHT_ELBOW also select LEFT; and when the four landmarks of the selected
side are present, any of them having visibility below 0.7 makes the score
0. -/
theorem C1_arm_side_amended :
    (∀ j : String, armSide j = (if j.data.contains 'L' then Side.LEFT else Side.RIGHT)) ∧
    (∀ (cfg : Config) (ch : ℝ) (c : Challenge) (j : String) (js : List String)
      (lms : Skeleton),
      c.targetType = "ARM" → c.evalJoints = some (j :: js) →
      (∀ i ∈ armJoints (armSide j), getLm lms i ≠ none) →
      (∃ i ∈ armJoints (armSide j), ∃ p, getLm lms i = some p ∧ p.visibility < 0.7) →
      calculateMatchScore cfg ch c lms = .ok 0) := by
  refine ⟨fun j => rfl, ?_⟩
  intro cfg ch c j js lms htype hjoints hpres hlow
  unfold calculateMatchScore
  rw [if_pos htype]
  have hhead : evalJointsHead c = .ok j := by
    simp [evalJointsHead, hjoints]
  have hv := visBelowCheck_true_of_low lms _ hpres hlow
  simp only [hhead, hv]

/-- An ARM challenge whose first eval joint names the left elbow. -/
def cArmL : Challenge := ⟨"arm-demo", "ARM", some ["LEFT_ELBOW"], none⟩

/-- Witness for C1 (amended): with all left-side landmarks present at
visibility 0.69, the ARM score of cArmL is 0. -/
theorem C1_arm_side_amended_witness :
    calculateMatchScore cfg0 480 cArmL sk069 = .ok 0 :=
  C1_arm_side_amended.2 cfg0 480 cArmL "LEFT_ELBOW" [] sk069 rfl rfl
    (by
      intro i hi
      fin_cases hi <;>
        simp [show armSide "LEFT_ELBOW" = Side.LEFT from rfl, shoulderIdx, elbowIdx,
          wristIdx, hipIdx, LANDMARKS.LEFT_SHOULDER, LANDMARKS.LEFT_ELBOW,
          LANDMARKS.LEFT_WRIST, LANDMARKS.LEFT_HIP, getLm, sk069,
          List.getD_eq_getElem?_getD, List.getElem?_replicate])
    ⟨LANDMARKS.LEFT_SHOULDER, by decide, pt069,
      by
        norm_num [getLm, sk069, List.getD_eq_getElem?_getD, List.getElem?_replicate,
          LANDMARKS.LEFT_SHOULDER],
      by norm_num [pt069]⟩

/-- An ARM challenge with no evalJoints configured. -/
def cArmNone : Challenge := ⟨"arm-none", "ARM", none, none⟩

/-- Counterexample for C8: an ARM challenge evaluated on an empty landmark
array dereferences a missing entry inside the visibility guard and throws a
TypeError instead of returning the numeric 0 the claim promises. -/
theorem C8_counterexample :
    calculateMatchScore cfg0 480 cArmL [] = .error .typeError := rfl

/-- C8 (amended): the start-pose gate is total (false on a null array) and
calculateMatchScore returns 0 for an unsupported targetType, but an ARM
challenge with missing evalJoints throws a TypeError, as does a missing
landmark entry reached by the visibility guard. -/
theorem C8_totality_amended :
    (∀ cfg : Config, ¬ isStartPoseAchieved cfg none) ∧
    (∀ (cfg : Config) (ch : ℝ) (c : Challenge) (lms : Skeleton),
      c.targetType ≠ "ARM" → c.targetType ≠ "LEG_BALANCE" →
      calculateMatchScore cfg ch c lms = .ok 0) ∧
    (∀ (cfg : Config) (ch : ℝ) (c : Challenge) (lms : Skeleton),
      c.targetType = "ARM" → c.evalJoints = none →
      calculateMatchScore cfg ch c lms = .error .typeError) ∧
    (∀ (cfg : Config) (ch : ℝ) (c : Challenge) (lms : Skeleton) (i : ℕ) (rest : List ℕ),
      c.targetType = "ARM" →
      (∃ j js, c.evalJoints = some (j :: js) ∧ armJoints (armSide j) = i :: rest) →
      getLm lms i = none →
      calculateMatchScore cfg ch c lms = .error .typeError) := by
  refine ⟨fun cfg h => h, ?_, ?_, ?_⟩
  · intro cfg ch c lms h1 h2
    unfold calculateMatchScore
    rw [if_neg h1, if_neg h2]
  · intro cfg ch c lms htype hnone
    unfold calculateMatchScore
    rw [if_pos htype]
    have hhead : evalJointsHead c = .error .typeError := by
      simp [evalJointsHead, hnone]
    rw [hhead]
  · rintro cfg ch c lms i rest htype ⟨j, js, hj, harm⟩ hmiss
    unfold calculateMatchScore
    rw [if_pos htype]
    have hhead : evalJointsHead c = .ok j := by
      simp [evalJointsHead, hj]
    have hv : visBelowCheck lms (i :: rest) = .error .typeError := by
      unfold visBelowCheck
      rw [hmiss]
      rfl
    simp only [hhead, harm, hv]

/-- Witness for C8 (amended): an unsupported targetType scores 0, and an ARM
challenge with missing evalJoints throws. -/
theorem C8_totality_amended_witness :
    calculateMatchScore cfg0 480 chFoo [] = .ok 0 ∧
    calculateMatchScore cfg0 480 cArmNone [] = .error .typeError :=
  ⟨C8_totality_amended.2.1 cfg0 480 chFoo [] (by decide) (by decide),
   C8_totality_amended.2.2.1 cfg0 480 cArmNone [] rfl rfl⟩

/-- The session state mutated by the frame handler: the challengeState React
state of lines 86-96 (display strings modelled numerically, the guide
message and colors omitted) plus currentChallengeIndex. -/
structure SessionState where
  isPoseFixed : Bool
  isChallengeStarted : Bool
  isInPreparationPhase : Bool
  finalPoseLandmarks : Option Skeleton
  currentScore : Option ℝ
  challenges : List Challenge
  currentChallengeIndex : ℕ

/-- Write of the finalized score into the copied challenge list (lines
334-335).  An out-of-range index would dereference undefined in JS; it is
never reached because finalization only addresses the active challenge, and
is modelled as a no-op. -/
def setScoreAt (cs : List Challenge) (idx : ℕ) (s : ℝ) : List Challenge :=
  match cs[idx]? with
  | none => cs
  | some c => cs.set idx { c with score := some s }

open Classical in
/-- Effect of one onResults frame callback carrying detected landmarks
(lines 320-392) on the session state.  Branch conditions are evaluated
against the state as read at entry, and the enqueued functional updates are
applied in order, as React processes them.  A thrown TypeError aborts the
remaining work of the handler and leaves the state from the updates already
enqueued. -/
noncomputable def processFrame (cfg : Config) (canvasHeight : ℝ)
    (st : SessionState) (frame : Skeleton) : SessionState :=
  let st1 :=
    if st.isChallengeStarted = false ∧ st.isInPreparationPhase = false ∧
        st.currentChallengeIndex < st.challenges.length ∧
        isStartPoseAchieved cfg (some frame) then
      { st with isInPreparationPhase := true }
    else st
  let st2 :=
    if st.isPoseFixed = true ∧ st.finalPoseLandmarks = none then
      match calculateMatchScoreAt cfg canvasHeight st.challenges
          st.currentChallengeIndex frame with
      | .ok s =>
          { st1 with
            finalPoseLandmarks := some frame
            challenges := setScoreAt st1.challenges st.currentChallengeIndex s
            currentScore := some s }
      | .error _ => st1
    else st1
  if st.finalPoseLandmarks = none ∧ st.isChallengeStarted = true then
    match calculateMatchScoreAt cfg canvasHeight st.challenges
        st.currentChallengeIndex frame with
    | .ok s => { st2 with currentScore := some s }
    | .error _ => st2
  else st2

lemma processFrame_frozen (cfg : Config) (canvasHeight : ℝ) (st : SessionState)
    (frame : Skeleton) (x : Skeleton)
    (hfin : st.finalPoseLandmarks = some x) (hstart : st.isChallengeStarted = true) :
    processFrame cfg canvasHeight st frame = st := by
  simp [processFrame, hfin, hstart]

lemma foldl_processFrame_frozen (cfg : Config) (canvasHeight : ℝ)
    (fs : List Skeleton) :
    ∀ st : SessionState, (∃ x, st.finalPoseLandmarks = some x) →
      st.isChallengeStarted = true →
      fs.foldl (processFrame cfg canvasHeight) st = st := by
  induction fs with
  | nil =>
    intro st _ _
    rfl
  | cons f rest ih =>
    rintro st ⟨x, hfin⟩ hstart
    rw [List.foldl_cons, processFrame_frozen cfg canvasHeight st f x hfin hstart]
    exact ih st ⟨x, hfin⟩ hstart

/-- C2: finalization is idempotent — in the Fixed phase the first frame
snapshots the skeleton and writes the challenge score, and every further
frame on the same challenge leaves the state, hence the score and the
frozen skeleton, unchanged. -/
theorem C2_finalization_idempotent (cfg : Config) (canvasHeight : ℝ)
    (st : SessionState) (f : Skeleton) (fs : List Skeleton) (s : ℝ)
    (hfix : st.isPoseFixed = true) (hfin : st.finalPoseLandmarks = none)
    (hstart : st.isChallengeStarted = true)
    (hscore : calculateMatchScoreAt cfg canvasHeight st.challenges
      st.currentChallengeIndex f = .ok s) :
    (processFrame cfg canvasHeight st f).finalPoseLandmarks = some f ∧
    (processFrame cfg canvasHeight st f).challenges =
      setScoreAt st.challenges st.currentChallengeIndex s ∧
    fs.foldl (processFrame cfg canvasHeight) (processFrame cfg canvasHeight st f) =
      processFrame cfg canvasHeight st f := by
  have hpf : processFrame cfg canvasHeight st f =
      { st with
        finalPoseLandmarks := some f
        challenges := setScoreAt st.challenges st.currentChallengeIndex s
        currentScore := some s } := by
    simp [processFrame, hfix, hfin, hstart, hscore]
  refine ⟨by rw [hpf], by rw [hpf], ?_⟩
  exact foldl_processFrame_frozen cfg canvasHeight fs _ ⟨f, by rw [hpf]⟩ (by rw [hpf]; exact hstart)

/-- A session state sitting in the Fixed phase on a single challenge with an
unsupported targetType, before finalization. -/
def st0 : SessionState :=
  { isPoseFixed := true
    isChallengeStarted := true
    isInPreparationPhase := false
    finalPoseLandmarks := none
    currentScore := none
    challenges := [chFoo]
    currentChallengeIndex := 0 }

/-- Witness for C2: feeding one frame and then nine more after entering
Fixed, the first sets the score and the rest change nothing. -/
theorem C2_finalization_idempotent_witness :
    (processFrame cfg0 480 st0 []).finalPoseLandmarks = some [] ∧
    (processFrame cfg0 480 st0 []).challenges = setScoreAt [chFoo] 0 0 ∧
    (List.replicate 9 []).foldl (processFrame cfg0 480) (processFrame cfg0 480 st0 []) =
      processFrame cfg0 480 st0 [] :=
  C2_finalization_idempotent cfg0 480 st0 [] (List.replicate 9 []) 0 rfl rfl rfl rfl

/-- The countdown length in seconds (line 251). -/
def COUNTDOWN_SECONDS : ℤ := 3

/-- The hold length in seconds (line 252). -/
def HOLD_SECONDS : ℤ := 5

/-- The phases distinguished by the interval callback of startChallengeTimer
(lines 257-283). -/
inductive Phase
  | Countdown
  | Hold
  | Fixed
deriving DecidableEq

/-- Branch taken by the interval callback for a whole-second elapsed time:
below COUNTDOWN_SECONDS the remaining-seconds display updates, below
COUNTDOWN_SECONDS + HOLD_SECONDS the hold display updates, otherwise the
pose is fixed. -/
def tickPhase (elapsed : ℤ) : Phase :=
  if elapsed < COUNTDOWN_SECONDS then .Countdown
  else if elapsed < COUNTDOWN_SECONDS + HOLD_SECONDS then .Hold
  else .Fixed

/-- Phase as a function of continuous time since the timer start: the
callback computes elapsed as the floor of the elapsed milliseconds over
1000 (line 258). -/
noncomputable def phaseAt (t : ℝ) : Phase := tickPhase ⌊t⌋

/-- The timer display: a remaining-seconds count or the GO indicator. -/
inductive TimerDisplay
  | seconds (n : ℤ)
  | go
deriving DecidableEq

/-- The timer-visible state mutated by the interval callback. -/
structure TimerState where
  isPoseFixed : Bool
  intervalActive : Bool
  timerDisplay : Option TimerDisplay

/-- Effect of the interval callback at a whole-second elapsed time (lines
257-283): countdown sets the remaining seconds, hold shows GO, and at
expiry the interval is cleared, the display dropped and the pose fixed. -/
def timerTick (elapsed : ℤ) (s : TimerState) : TimerState :=
  if elapsed < COUNTDOWN_SECONDS then
    { s with timerDisplay := some (.seconds (COUNTDOWN_SECONDS - elapsed)) }
  else if elapsed < COUNTDOWN_SECONDS + HOLD_SECONDS then
    { s with timerDisplay := some .go }
  else
    { s with isPoseFixed := true, intervalActive := false, timerDisplay := none }

lemma processFrame_challenges_of_not_fixed (cfg : Config) (canvasHeight : ℝ)
    (st : SessionState) (frame : Skeleton) (hfix : st.isPoseFixed = false) :
    (processFrame cfg canvasHeight st frame).challenges = st.challenges := by
  unfold processFrame
  simp only [hfix, Bool.false_eq_true, false_and, if_false]
  split_ifs with h1 h3 h3 <;>
    first
      | rfl
      | (cases hm : calculateMatchScoreAt cfg canvasHeight st.challenges
          st.currentChallengeIndex frame <;> simp [hm])

lemma processFrame_display_score (cfg : Config) (canvasHeight : ℝ)
    (st : SessionState) (frame : Skeleton) (s : ℝ)
    (hfix : st.isPoseFixed = false) (hstart : st.isChallengeStarted = true)
    (hfin : st.finalPoseLandmarks = none)
    (hscore : calculateMatchScoreAt cfg canvasHeight st.challenges
      st.currentChallengeIndex frame = .ok s) :
    (processFrame cfg canvasHeight st frame).currentScore = some s := by
  simp [processFrame, hfix, hstart, hfin, hscore]

/-- C5: starting the challenge timer at t = 0, the phase is Countdown on
[0,3), Hold on [3,8), and Fixed is entered at t = 8, where the interval is
cancelled and isPoseFixed becomes true; during Hold every frame is
live-scored, updating only the displayed score and never the challenge
list. -/
theorem C5_phase_timing :
    (∀ t : ℝ, 0 ≤ t → t < 3 → phaseAt t = .Countdown) ∧
    (∀ t : ℝ, 3 ≤ t → t < 8 → phaseAt t = .Hold) ∧
    phaseAt 8 = .Fixed ∧
    (∀ s : TimerState, (timerTick 8 s).isPoseFixed = true ∧
      (timerTick 8 s).intervalActive = false) ∧
    (∀ (cfg : Config) (ch : ℝ) (st : SessionState) (frame : Skeleton) (s : ℝ),
      st.isPoseFixed = false → st.isChallengeStarted = true →
      st.finalPoseLandmarks = none →
      calculateMatchScoreAt cfg ch st.challenges st.currentChallengeIndex frame = .ok s →
      (processFrame cfg ch st frame).challenges = st.challenges ∧
      (processFrame cfg ch st frame).currentScore = some s) := by
  refine ⟨?_, ?_, ?_, ?_, ?_⟩
  · intro t _ ht
    have hf : ⌊t⌋ < (3 : ℤ) := Int.floor_lt.mpr (by push_cast; linarith)
    unfold phaseAt tickPhase COUNTDOWN_SECONDS
    rw [if_pos hf]
  · intro t h3 h8
    have hge : (3 : ℤ) ≤ ⌊t⌋ := Int.le_floor.mpr (by push_cast; linarith)
    have hlt : ⌊t⌋ < (8 : ℤ) := Int.floor_lt.mpr (by push_cast; linarith)
    unfold phaseAt tickPhase COUNTDOWN_SECONDS HOLD_SECONDS
    rw [if_neg (by omega), if_pos (by omega)]
  · have h8 : ⌊(8 : ℝ)⌋ = (8 : ℤ) := by norm_num
    unfold phaseAt tickPhase COUNTDOWN_SECONDS HOLD_SECONDS
    rw [h8, if_neg (by omega), if_neg (by omega)]
  · intro s
    unfold timerTick COUNTDOWN_SECONDS HOLD_SECONDS
    rw [if_neg (by omega), if_neg (by omega)]
    exact ⟨rfl, rfl⟩
  · intro cfg ch st frame s hfix hstart hfin hscore
    exact ⟨processFrame_challenges_of_not_fixed cfg ch st frame hfix,
      processFrame_display_score cfg ch st frame s hfix hstart hfin hscore⟩

/-- A session state in the Hold phase on the demo challenge. -/
def stHold : SessionState :=
  { isPoseFixed := false
    isChallengeStarted := true
    isInPreparationPhase := false
    finalPoseLandmarks := none
    currentScore := none
    challenges := [chFoo]
    currentChallengeIndex := 0 }

/-- Witness for C5: concrete times in each interval and a concrete Hold
frame that updates only the displayed score. -/
theorem C5_phase_timing_witness :
    phaseAt 1 = .Countdown ∧ phaseAt 5 = .Hold ∧
    ((processFrame cfg0 480 stHold []).challenges = stHold.challenges ∧
      (processFrame cfg0 480 stHold []).currentScore = some 0) :=
  ⟨C5_phase_timing.1 1 (by norm_num) (by norm_num),
   C5_phase_timing.2.1 5 (by norm_num) (by norm_num),
   C5_phase_timing.2.2.2.2 cfg0 480 stHold [] 0 rfl rfl rfl rfl⟩

/-- The headline tiers of the final message (lines 199-206). -/
inductive Tier
  | success
  | retry
deriving DecidableEq

/-- Total of the challenges' final scores accumulated by showFinalResults
(lines 189-195).  Every challenge has been finalized when this runs, so
reading the written score with a default only totalizes the read. -/
noncomputable def totalFinalScore (cs : List Challenge) : ℝ :=
  (cs.map (fun c => c.score.getD 0)).sum

/-- The arithmetic mean computed on line 197. -/
noncomputable def averageScore (cs : List Challenge) : ℝ :=
  totalFinalScore cs / cs.length

/-- Headline selection (lines 200-206): the success tier exactly when the
average exceeds 90, otherwise the retry-encouragement tier. -/
noncomputable def headlineTier (avg : ℝ) : Tier :=
  if 90 < avg then .success else .retry

/-- The session summary produced on Finished. -/
structure FinalReport where
  entries : List (String × ℝ)
  average : ℝ
  tier : Tier

/-- Embedding of showFinalResults (lines 188-218): each challenge name
paired with its score, the mean, and the selected headline tier. -/
noncomputable def showFinalResults (cs : List Challenge) : FinalReport :=
  { entries := cs.map (fun c => (c.name, c.score.getD 0))
    average := averageScore cs
    tier := headlineTier (averageScore cs) }

/-- Three finalized challenges with scores 100, 80 and 60. -/
def demoChallenges : List Challenge :=
  [⟨"A", "ARM", none, some 100⟩, ⟨"B", "ARM", none, some 80⟩,
   ⟨"C", "LEG_BALANCE", none, some 60⟩]

/-- C6: the result aggregator reports each challenge name with its score,
computes the arithmetic mean of the final scores, and selects the success
headline iff the mean strictly exceeds 90; on scores 100, 80 and 60 the
mean is 80 and the retry tier is selected. -/
theorem C6_final_results :
    (∀ cs : List Challenge,
      (showFinalResults cs).entries = cs.map (fun c => (c.name, c.score.getD 0)) ∧
      (showFinalResults cs).average =
        (cs.map (fun c => c.score.getD 0)).sum / cs.length) ∧
    (∀ cs : List Challenge,
      ((showFinalResults cs).tier = .success ↔ 90 < averageScore cs)) ∧
    (showFinalResults demoChallenges).average = 80 ∧
    (showFinalResults demoChallenges).tier = .retry := by
  have havg : (showFinalResults demoChallenges).average = 80 := by
    show averageScore demoChallenges = 80
    unfold averageScore totalFinalScore demoChallenges
    norm_num
  refine ⟨fun cs => ⟨rfl, rfl⟩, ?_, havg, ?_⟩
  · intro cs
    show headlineTier (averageScore cs) = Tier.success ↔ 90 < averageScore cs
    unfold headlineTier
    split_ifs with h
    · simp [h]
    · simpa using h
  · show headlineTier (averageScore demoChallenges) = Tier.retry
    have h80 : averageScore demoChallenges = 80 := havg
    rw [h80]
    unfold headlineTier
    rw [if_neg (by norm_num)]

/-- Witness for C6: the aggregator facts projected at the concrete scores
100, 80 and 60. -/
theorem C6_final_results_witness :
    (showFinalResults demoChallenges).average = 80 ∧
    (showFinalResults demoChallenges).tier = .retry :=
  ⟨C6_final_results.2.2.1, C6_final_results.2.2.2⟩

end PoseChallenge
